import Mathlib

/-!
Shallow embedding of the spotify-player client layer
(src/spotify_player/src/client.rs): the event dispatcher `handle_event`,
its helper functions, and the watcher loop `start_watcher`, together with
proofs about dispatch semantics.

Conventions of the embedding:
* `SystemTime` values are modelled as natural numbers of seconds.
* Remote calls issued through the `rspotify`/`reqwest` clients are modelled
  by a `Gateway` record of oracles; each dispatch additionally records the
  list of Gateway calls it performed (`GCall`), so that "performs no
  Gateway calls" is a statable property.
* Rust `Result` is modelled as `Except String`; `anyhow!` messages are kept.
* The unbounded `while let Some(url) = next` pagination loop of
  `get_current_playlist_tracks` is modelled with an explicit fuel
  parameter; running out of fuel is an error outcome, standing for the
  non-termination that an infinite cursor chain would cause in the source.
* Rust `to_lowercase` is modelled by `String.toLower` (ASCII lowering),
  adequate for the reasoning done here.
-/

namespace Spotify

/-- A track as far as this layer observes it: its playback URI and the
name its display description is built from (rspotify `FullTrack`,
restricted to the observed fields). -/
structure Track where
  uri : String
  name : String
  deriving Repr, DecidableEq

/-- rspotify `playlist::PlaylistTrack`: the wrapped track is `None` when
the underlying track is unaccessible or deleted. -/
structure PlaylistTrack where
  track : Option Track
  deriving Repr, DecidableEq

/-- rspotify `page::Page<PlaylistTrack>`: one page of items plus the
optional URL of the next page. -/
structure Page where
  items : List PlaylistTrack
  next : Option String
  deriving Repr, DecidableEq

/-- rspotify `playlist::FullPlaylist`, restricted to the observed fields:
its id and the first page of its tracks. -/
structure FullPlaylist where
  id : String
  tracks : Page
  deriving Repr, DecidableEq

/-- rspotify `senum::RepeatState`. -/
inductive RepeatState where
  | Off
  | Track
  | Context
  deriving Repr, DecidableEq

/-- rspotify `context::Context`, restricted to the observed `uri` field. -/
structure Context where
  uri : String
  deriving Repr, DecidableEq

/-- rspotify `context::CurrentlyPlaybackContext`, restricted to the fields
the dispatcher reads. -/
structure CurrentlyPlaybackContext where
  context : Option Context
  repeat_state : RepeatState
  shuffle_state : Bool
  is_playing : Bool
  deriving Repr, DecidableEq

/-- tui `TableState`, restricted to the selection index (external
library type; `select`/`selected` just write/read it). -/
structure TableState where
  selected : Option Nat
  deriving Repr, DecidableEq

/-- tui `TableState::select`. -/
def TableState.select (_t : TableState) (i : Option Nat) : TableState := ⟨i⟩

/-- Modelled from the spec: the search state of the missing `state`
module — `search_state: {query: optional string, filtered_tracks: ordered
sequence of Track}`, recomputed in full on each search intent. -/
structure SearchState where
  query : Option String
  tracks : List Track
  deriving Repr, DecidableEq

/-- The shared application state (`state::State` of the missing `state`
module), restricted to the fields `client.rs` reads and writes; field
names follow the source. -/
structure State where
  is_running : Bool
  auth_token_expires_at : Nat
  current_playback_context : Option CurrentlyPlaybackContext
  current_playlist : Option FullPlaylist
  current_playlist_tracks : List PlaylistTrack
  ui_context_tracks_table_state : TableState
  context_search_state : SearchState
  deriving Repr, DecidableEq

/-- Modelled from the spec: `state::get_track_description` is in the
missing `state` module. The spec matches search queries against track
names ("against tracks named ..."), so the display description is the
track's name. -/
def get_track_description (t : Track) : String := t.name

/-- Modelled from the spec: `State::get_context_tracks` is in the missing
`state` module; it yields the underlying track data of the loaded
playlist's tracks (`current_playlist_tracks`, whose stored entries all
have non-null track data per the spec's invariant). -/
def State.get_context_tracks (s : State) : List Track :=
  s.current_playlist_tracks.filterMap (fun pt => pt.track)

/-- Modelled from the spec: `State::get_context_filtered_tracks` is in the
missing `state` module; the spec's "displayed tracks" are "whichever of
`current_playlist_tracks` or `search_state.filtered_tracks` is currently
active": the search-filtered subset while a search query is present,
otherwise the full playlist track list. -/
def State.get_context_filtered_tracks (s : State) : List Track :=
  match s.context_search_state.query with
  | some _ => s.context_search_state.tracks
  | none => s.get_context_tracks

/-- Modelled from the spec: the sort order carried by the
`SortPlaylistTracks` intent (its type is in the missing `state` module). -/
inductive Order where
  | Ascending
  | Descending
  deriving Repr, DecidableEq

/-- Modelled from the spec: `State::sort_playlist_tracks` is in the
missing `state` module; it "reorders `current_playlist_tracks` in place by
the given order" and never fails (no-op if nothing is loaded). Ordering is
by display description. -/
def State.sort_playlist_tracks (s : State) (o : Order) : State :=
  let key : PlaylistTrack → String := fun pt => (pt.track.map get_track_description).getD ""
  let sorted :=
    match o with
    | Order.Ascending =>
        s.current_playlist_tracks.insertionSort (fun a b => key a ≤ key b)
    | Order.Descending =>
        s.current_playlist_tracks.insertionSort (fun a b => key b ≤ key a)
  {s with current_playlist_tracks := sorted}

/-- Rust `str::to_lowercase`, modelled as per-character ASCII lowering
(the standard library's `String.toLower`, written structurally over the
character list so that it evaluates by kernel reduction). -/
def to_lowercase (s : String) : String := String.mk (s.data.map Char.toLower)

/-- Rust `String::remove(0)` as used on the stored query: the string
without its first character. The source only calls it on a non-empty
stored query (it panics on an empty one). -/
def remove_first (s : String) : String := String.mk (s.data.drop 1)

/-- Rust `str::contains` (substring containment), over the character
lists of the two strings. -/
def strContains (hay pat : String) : Bool :=
  hay.data.tails.any (fun t => pat.data.isPrefixOf t)

/-- One Gateway (remote service) call, as recorded by a dispatch. -/
inductive GCall where
  | getToken
  | getPlaylist (id : String)
  | getPage (url : String)
  | startPlayback (args : Option (String × String))
  | pausePlayback
  | nextTrack
  | previousTrack
  | shuffle (b : Bool)
  | setRepeat (r : RepeatState)
  | currentPlayback
  deriving Repr, DecidableEq

/-- The remote playback Gateway as an oracle: what each remote call would
return. `token` is the `expires_at` value `get_token` would yield (`none`
models an authentication failure); `start_playback none` is the
resume form, `start_playback (some (context_uri, track_uri))` the
play-with-context form of the single rspotify endpoint. -/
structure Gateway where
  token : Option Nat
  playlist : String → Except String FullPlaylist
  page : String → Except String Page
  start_playback : Option (String × String) → Except String Unit
  pause_playback : Except String Unit
  next_track : Except String Unit
  previous_track : Except String Unit
  shuffle : Bool → Except String Unit
  set_repeat : RepeatState → Except String Unit
  current_playback : Except String (Option CurrentlyPlaybackContext)

/-- `Client::refresh_token`: `get_token` failure is `anyhow!("auth
failed")`; on success the stored expiry is `expires_at` minus the 10
second safety margin. -/
def refresh_token (gw : Gateway) : Except String Nat :=
  match gw.token with
  | none => Except.error "auth failed"
  | some expires_at => Except.ok (expires_at - 10)

/-- `RepeatState` successor used by `Client::cycle_repeat`
(Off → Track → Context → Off). -/
def next_repeat_state : RepeatState → RepeatState
  | RepeatState.Off => RepeatState.Track
  | RepeatState.Track => RepeatState.Context
  | RepeatState.Context => RepeatState.Off

/-- The outcome of one dispatch: the `Result` it returns, the shared
state after it (writes made before an error stick, as in the source), and
the Gateway calls it performed, in order. -/
structure DispatchOutcome where
  result : Except String Unit
  state : State
  calls : List GCall
  deriving Repr

/-- The pagination loop of `Client::get_current_playlist_tracks`:
`while let Some(url) = next { tracks.append(fetch(url)?); next = ... }`,
with explicit fuel for the unbounded cursor chain. -/
def fetch_pages (gw : Gateway) : Nat → List PlaylistTrack → Option String →
    Except String (List PlaylistTrack) × List GCall
  | _, tracks, none => (Except.ok tracks, [])
  | 0, _, some _ => (Except.error "pagination cursor chain too long", [])
  | fuel + 1, tracks, some url =>
    match gw.page url with
    | Except.error e => (Except.error e, [GCall.getPage url])
    | Except.ok paged =>
      let rest := fetch_pages gw fuel (tracks ++ paged.items) paged.next
      (rest.1, GCall.getPage url :: rest.2)

/-- `Client::get_current_playlist_tracks`: starts from the loaded
playlist's embedded first page and follows `next` cursors. -/
def get_current_playlist_tracks (gw : Gateway) (fuel : Nat) (s : State) :
    Except String (List PlaylistTrack) × List GCall :=
  match s.current_playlist with
  | none => (Except.ok [], [])
  | some pl => fetch_pages gw fuel pl.tracks.items pl.tracks.next

/-- The short-circuit test of the `GetPlaylist` arm: "avoid getting the
same playlist more than once". -/
def same_playlist_loaded (s : State) (playlist_id : String) : Bool :=
  match s.current_playlist with
  | some playlist => playlist.id == playlist_id
  | none => false

/-- The body of the `GetPlaylist` arm past the short-circuit: fetch the
playlist, write it to the state, fetch and filter its tracks, update the
selection, write the track list. -/
def get_playlist_load (gw : Gateway) (fuel : Nat) (s : State)
    (playlist_id : String) : DispatchOutcome :=
  match gw.playlist playlist_id with
  | Except.error e => ⟨Except.error e, s, [GCall.getPlaylist playlist_id]⟩
  | Except.ok playlist =>
    let s1 := {s with current_playlist := some playlist}
    match get_current_playlist_tracks gw fuel s1 with
    | (Except.error e, cs) => ⟨Except.error e, s1, GCall.getPlaylist playlist_id :: cs⟩
    | (Except.ok tracks, cs) =>
      -- filter tracks that are either unaccessible or deleted from album
      let tracks := tracks.filter (fun t => t.track.isSome)
      let s2 :=
        if tracks.isEmpty then s1
        else {s1 with ui_context_tracks_table_state :=
                s1.ui_context_tracks_table_state.select (some 0)}
      ⟨Except.ok (), {s2 with current_playlist_tracks := tracks},
       GCall.getPlaylist playlist_id :: cs⟩

/-- The client events (`event::Event` of the missing `event` module, with
exactly the variants `handle_event` matches on). -/
inductive Event where
  | RefreshToken
  | NextTrack
  | PreviousTrack
  | ResumePause
  | Shuffle
  | Repeat
  | Quit
  | GetPlaylist (playlist_id : String)
  | SelectNextTrack
  | SelectPreviousTrack
  | PlaySelectedTrack
  | SearchTrackInContext
  | SortPlaylistTracks (order : Order)
  deriving Repr, DecidableEq

/-- `Client::handle_event`. Every arm mirrors the source; the error of
`get_current_playback_state` is the `anyhow!` message of the source. -/
def handle_event (gw : Gateway) (fuel : Nat) (s : State) : Event → DispatchOutcome
  | Event.RefreshToken =>
    match refresh_token gw with
    | Except.error e => ⟨Except.error e, s, [GCall.getToken]⟩
    | Except.ok t => ⟨Except.ok (), {s with auth_token_expires_at := t}, [GCall.getToken]⟩
  | Event.NextTrack => ⟨gw.next_track, s, [GCall.nextTrack]⟩
  | Event.PreviousTrack => ⟨gw.previous_track, s, [GCall.previousTrack]⟩
  | Event.ResumePause =>
    match s.current_playback_context with
    | none => ⟨Except.error "unable to get the currently playing context", s, []⟩
    | some playback =>
      if playback.is_playing then ⟨gw.pause_playback, s, [GCall.pausePlayback]⟩
      else ⟨gw.start_playback none, s, [GCall.startPlayback none]⟩
  | Event.Shuffle =>
    match s.current_playback_context with
    | none => ⟨Except.error "unable to get the currently playing context", s, []⟩
    | some playback =>
      ⟨gw.shuffle (!playback.shuffle_state), s, [GCall.shuffle (!playback.shuffle_state)]⟩
  | Event.Repeat =>
    match s.current_playback_context with
    | none => ⟨Except.error "unable to get the currently playing context", s, []⟩
    | some playback =>
      let r := next_repeat_state playback.repeat_state
      ⟨gw.set_repeat r, s, [GCall.setRepeat r]⟩
  | Event.Quit => ⟨Except.ok (), {s with is_running := false}, []⟩
  | Event.GetPlaylist playlist_id =>
    -- avoid getting the same playlist more than once
    if same_playlist_loaded s playlist_id then ⟨Except.ok (), s, []⟩
    else get_playlist_load gw fuel s playlist_id
  | Event.SelectNextTrack =>
    match s.ui_context_tracks_table_state.selected with
    | some id =>
      if id + 1 < s.get_context_filtered_tracks.length then
        ⟨Except.ok (), {s with ui_context_tracks_table_state :=
            s.ui_context_tracks_table_state.select (some (id + 1))}, []⟩
      else ⟨Except.ok (), s, []⟩
    | none => ⟨Except.ok (), s, []⟩
  | Event.SelectPreviousTrack =>
    match s.ui_context_tracks_table_state.selected with
    | some id =>
      if id > 0 then
        ⟨Except.ok (), {s with ui_context_tracks_table_state :=
            s.ui_context_tracks_table_state.select (some (id - 1))}, []⟩
      else ⟨Except.ok (), s, []⟩
    | none => ⟨Except.ok (), s, []⟩
  | Event.PlaySelectedTrack =>
    match s.ui_context_tracks_table_state.selected, s.current_playback_context with
    | some id, some playback =>
      match playback.context with
      | some context =>
        let ts := s.get_context_filtered_tracks
        if h : id < ts.length then
          let args := some (context.uri, (ts.get ⟨id, h⟩).uri)
          ⟨gw.start_playback args, s, [GCall.startPlayback args]⟩
        else
          -- the source indexes the list directly and panics out of bounds
          ⟨Except.error "index out of bounds", s, []⟩
      | none => ⟨Except.ok (), s, []⟩
    | none, _ => ⟨Except.ok (), s, []⟩
    | some _, none => ⟨Except.ok (), s, []⟩
  | Event.SearchTrackInContext =>
    match s.context_search_state.query with
    | none => ⟨Except.ok (), s, []⟩
    | some query =>
      let query := remove_first query
      let tracks := s.get_context_tracks.filter
        (fun t => strContains (to_lowercase (get_track_description t)) query)
      let id : Option Nat := if tracks.isEmpty then none else some 0
      ⟨Except.ok (),
       {s with context_search_state := {s.context_search_state with tracks := tracks},
               ui_context_tracks_table_state :=
                 s.ui_context_tracks_table_state.select id}, []⟩
  | Event.SortPlaylistTracks order =>
    ⟨Except.ok (), s.sort_playlist_tracks order, []⟩

/-- Modelled from the spec: `config::PLAYBACK_REFRESH_DURACTION` (the
missing `config` module) is the fixed refresh interval of the watcher
loop, in seconds. -/
def PLAYBACK_REFRESH_DURACTION : Nat := 1

/-- The loop-local data of `start_watcher`: the shared state and the
`last_refresh` timestamp. -/
structure WatcherState where
  app : State
  last_refresh : Nat

/-- The timer branch of a watcher tick: when `now` has passed
`last_refresh + PLAYBACK_REFRESH_DURACTION`, re-fetch the current playback
context (propagating its error) and reset the timestamp. -/
def refresh_step (gw : Gateway) (w : WatcherState) (now : Nat) :
    Except String WatcherState × List GCall :=
  if now > w.last_refresh + PLAYBACK_REFRESH_DURACTION then
    match gw.current_playback with
    | Except.error e => (Except.error e, [GCall.currentPlayback])
    | Except.ok p =>
      (Except.ok ⟨{w.app with current_playback_context := p}, now⟩, [GCall.currentPlayback])
  else (Except.ok w, [])

/-- One iteration of the `loop` body of `start_watcher`: a non-blocking
receive (`ev` is the intent drained this tick, if any) whose dispatch
error propagates out of the loop via `?`, then the timer branch. An
`Except.error` outcome means `start_watcher` returns with that error. -/
def tick (gw : Gateway) (fuel : Nat) (w : WatcherState) (ev : Option Event)
    (now : Nat) : Except String WatcherState × List GCall :=
  match ev with
  | none => refresh_step gw w now
  | some e =>
    let out := handle_event gw fuel w.app e
    match out.result with
    | Except.error m => (Except.error m, out.calls)
    | Except.ok _ =>
      let r := refresh_step gw ⟨out.state, w.last_refresh⟩ now
      (r.1, out.calls ++ r.2)

/-- The mandatory startup of `start_watcher`, before the loop: refresh
the token and fetch the initial playback context; either failure
propagates (the loop is never entered). -/
def start_watcher_startup (gw : Gateway) (s : State) : Except String State :=
  match refresh_token gw with
  | Except.error e => Except.error e
  | Except.ok t =>
    match gw.current_playback with
    | Except.error e => Except.error e
    | Except.ok p =>
      Except.ok {s with auth_token_expires_at := t, current_playback_context := p}

/-! Concrete fixtures used by witnesses and counterexamples. -/

/-- A gateway on which every playback operation succeeds and no catalog
data exists. -/
def gwOk : Gateway :=
  { token := some 100
    playlist := fun _ => Except.error "no such playlist"
    page := fun _ => Except.error "no such page"
    start_playback := fun _ => Except.ok ()
    pause_playback := Except.ok ()
    next_track := Except.ok ()
    previous_track := Except.ok ()
    shuffle := fun _ => Except.ok ()
    set_repeat := fun _ => Except.ok ()
    current_playback := Except.ok none }

/-- A freshly started shared state: running, nothing loaded, nothing
selected. -/
def s0 : State :=
  { is_running := true
    auth_token_expires_at := 0
    current_playback_context := none
    current_playlist := none
    current_playlist_tracks := []
    ui_context_tracks_table_state := ⟨none⟩
    context_search_state := ⟨none, []⟩ }

/-- A one-track playlist with id "A" and no further pages. -/
def plA : FullPlaylist := ⟨"A", ⟨[⟨some ⟨"uA", "TrackA"⟩⟩], none⟩⟩

/-- A state in which playlist "A" is already loaded. -/
def sSC : State :=
  { s0 with
    current_playlist := some plA
    current_playlist_tracks := [⟨some ⟨"uA", "TrackA"⟩⟩]
    ui_context_tracks_table_state := ⟨some 0⟩ }

/-- A playlist "new" whose track list continues on a second page. -/
def plNew : FullPlaylist := ⟨"new", ⟨[⟨some ⟨"u1", "T1"⟩⟩], some "page2"⟩⟩

/-- A gateway that serves playlist "new" but fails every page fetch. -/
def gwC1 : Gateway :=
  { gwOk with
    playlist := fun i => if i = "new" then Except.ok plNew else Except.error "no such playlist"
    page := fun _ => Except.error "boom" }

/-- A gateway whose skip-to-next-track call fails. -/
def gwC2 : Gateway := { gwOk with next_track := Except.error "network failure" }

/-- The shared state after a successful startup against `gwC2`
(token expiry 100 minus the 10 second margin; no live playback). -/
def sAfterStartup : State := { s0 with auth_token_expires_at := 90 }

/-! Claim theorems. -/

/-- C8 (confirmed): the repeat-mode transition issued by the Repeat
intent (`Client::cycle_repeat`) is a pure 3-cycle over
{Off, Track, Context}: applying it three times from any starting mode
returns to the starting mode. -/
theorem repeat_transition_three_cycle :
    ∀ m : RepeatState, next_repeat_state (next_repeat_state (next_repeat_state m)) = m := by
  intro m
  cases m <;> rfl

/-- C7 (confirmed): when the playlist with the requested id is already
loaded, dispatching `GetPlaylist` again performs no Gateway calls, leaves
the entire shared state unchanged, and returns success. -/
theorem get_playlist_short_circuit (gw : Gateway) (fuel : Nat) (s : State)
    (pl : FullPlaylist) (playlist_id : String)
    (h1 : s.current_playlist = some pl) (h2 : pl.id = playlist_id) :
    handle_event gw fuel s (Event.GetPlaylist playlist_id) =
      ⟨Except.ok (), s, []⟩ := by
  simp [handle_event, same_playlist_loaded, h1, h2]

/-- Witness for C7: reloading the already-loaded playlist "A" is a
successful no-op. -/
theorem get_playlist_short_circuit_witness :
    sSC.current_playlist = some plA ∧ plA.id = "A" ∧
    handle_event gwOk 1 sSC (Event.GetPlaylist "A") = ⟨Except.ok (), sSC, []⟩ :=
  ⟨rfl, rfl, get_playlist_short_circuit gwOk 1 sSC plA "A" rfl rfl⟩

/-- C9 (confirmed): when no selection is set, or no playback context is
known, or the known playback context lacks a context URI, dispatching
`PlaySelectedTrack` performs zero Gateway calls and returns success. -/
theorem play_selected_track_silent_noop (gw : Gateway) (fuel : Nat) (s : State)
    (h : s.ui_context_tracks_table_state.selected = none ∨
         s.current_playback_context = none ∨
         (∃ p, s.current_playback_context = some p ∧ p.context = none)) :
    handle_event gw fuel s Event.PlaySelectedTrack = ⟨Except.ok (), s, []⟩ := by
  rcases h with h | h | ⟨p, hp, hc⟩
  · simp [handle_event, h]
  · cases hsel : s.ui_context_tracks_table_state.selected <;>
      simp [handle_event, hsel, h]
  · cases hsel : s.ui_context_tracks_table_state.selected <;>
      simp [handle_event, hsel, hp, hc]

/-- Witness for C9: with no selection set, `PlaySelectedTrack` is a
successful silent no-op. -/
theorem play_selected_track_silent_noop_witness :
    s0.ui_context_tracks_table_state.selected = none ∧
    handle_event gwOk 1 s0 Event.PlaySelectedTrack = ⟨Except.ok (), s0, []⟩ :=
  ⟨rfl, play_selected_track_silent_noop gwOk 1 s0 (Or.inl rfl)⟩

/-- C10 (confirmed): for every intent in {NextTrack, PreviousTrack,
ResumePause, Shuffle, Repeat, PlaySelectedTrack}, a dispatch — whether it
succeeds or fails — leaves every field of the shared state unchanged:
these handlers only read state and issue Gateway calls. -/
theorem readonly_intents_leave_state_unchanged (gw : Gateway) (fuel : Nat)
    (s : State) (e : Event)
    (h : e = Event.NextTrack ∨ e = Event.PreviousTrack ∨ e = Event.ResumePause ∨
         e = Event.Shuffle ∨ e = Event.Repeat ∨ e = Event.PlaySelectedTrack) :
    (handle_event gw fuel s e).state = s := by
  rcases h with h | h | h | h | h | h <;> subst h
  · rfl
  · rfl
  · cases hc : s.current_playback_context with
    | none => simp only [handle_event, hc]
    | some p =>
      simp only [handle_event, hc]
      split <;> rfl
  · cases hc : s.current_playback_context <;> simp only [handle_event, hc]
  · cases hc : s.current_playback_context <;> simp only [handle_event, hc]
  · simp only [handle_event]
    split
    · split
      · split <;> rfl
      · rfl
    · rfl
    · rfl

/-- Witness for C10: dispatching `NextTrack` leaves the state unchanged. -/
theorem readonly_intents_leave_state_unchanged_witness :
    (handle_event gwOk 1 s0 Event.NextTrack).state = s0 :=
  readonly_intents_leave_state_unchanged gwOk 1 s0 Event.NextTrack (Or.inl rfl)

/-- C1 counterexample: with playlist "A" loaded, loading playlist "new"
whose second track page fails to fetch returns an error, yet
`current_playlist` has already been overwritten — the load is not atomic
over both fields. -/
theorem playlist_load_not_fully_atomic :
    (handle_event gwC1 5 sSC (Event.GetPlaylist "new")).result = Except.error "boom" ∧
    (handle_event gwC1 5 sSC (Event.GetPlaylist "new")).state.current_playlist ≠
      sSC.current_playlist := by
  constructor
  · rfl
  · decide

/-- C1 (corrected): when a `GetPlaylist` dispatch that actually performs
the load fetches the playlist successfully but a track-page fetch fails,
the dispatch returns that error with `current_playlist_tracks` and the
selection left at their pre-load values — but `current_playlist` has
already been replaced by the newly fetched playlist. -/
theorem playlist_load_page_failure_keeps_tracks (gw : Gateway) (fuel : Nat)
    (s : State) (playlist_id msg : String) (pl : FullPlaylist)
    (hnoshort : same_playlist_loaded s playlist_id = false)
    (hpl : gw.playlist playlist_id = Except.ok pl)
    (hfail : (fetch_pages gw fuel pl.tracks.items pl.tracks.next).1 = Except.error msg) :
    (handle_event gw fuel s (Event.GetPlaylist playlist_id)).result = Except.error msg ∧
    (handle_event gw fuel s (Event.GetPlaylist playlist_id)).state.current_playlist = some pl ∧
    (handle_event gw fuel s (Event.GetPlaylist playlist_id)).state.current_playlist_tracks =
      s.current_playlist_tracks ∧
    (handle_event gw fuel s (Event.GetPlaylist playlist_id)).state.ui_context_tracks_table_state =
      s.ui_context_tracks_table_state := by
  rcases hres : fetch_pages gw fuel pl.tracks.items pl.tracks.next with ⟨r, cs⟩
  rw [hres] at hfail
  simp only at hfail
  subst hfail
  simp [handle_event, hnoshort, get_playlist_load, hpl, get_current_playlist_tracks, hres]

/-- Witness for C1: the concrete failing load of `playlist_load_not_fully_atomic`
keeps the old track list and selection. -/
theorem playlist_load_page_failure_keeps_tracks_witness :
    same_playlist_loaded sSC "new" = false ∧
    gwC1.playlist "new" = Except.ok plNew ∧
    (fetch_pages gwC1 5 plNew.tracks.items plNew.tracks.next).1 = Except.error "boom" ∧
    ((handle_event gwC1 5 sSC (Event.GetPlaylist "new")).result = Except.error "boom" ∧
     (handle_event gwC1 5 sSC (Event.GetPlaylist "new")).state.current_playlist = some plNew ∧
     (handle_event gwC1 5 sSC (Event.GetPlaylist "new")).state.current_playlist_tracks =
       sSC.current_playlist_tracks ∧
     (handle_event gwC1 5 sSC (Event.GetPlaylist "new")).state.ui_context_tracks_table_state =
       sSC.ui_context_tracks_table_state) :=
  ⟨by decide, by rfl, by rfl,
   playlist_load_page_failure_keeps_tracks gwC1 5 sSC "new" "boom" plNew (by decide) rfl rfl⟩

/-- C2 counterexample: startup succeeds against `gwC2`, yet the very next
tick that dispatches a failing `NextTrack` intent makes the watcher loop
return with the error — a single intent's failure is fatal to the loop. -/
theorem intent_failure_terminates_watcher :
    start_watcher_startup gwC2 s0 = Except.ok sAfterStartup ∧
    (tick gwC2 1 ⟨sAfterStartup, 0⟩ (some Event.NextTrack) 0).1 =
      Except.error "network failure" :=
  ⟨rfl, rfl⟩

/-- C2 (corrected): an error returned by any intent's dispatch propagates
out of the watcher loop and terminates it (not only startup-refresh
failures are fatal); the loop continues past an intent only when its
dispatch succeeds. -/
theorem watcher_error_propagation (gw : Gateway) (fuel : Nat) (w : WatcherState)
    (e : Event) (now : Nat) :
    (∀ msg, (handle_event gw fuel w.app e).result = Except.error msg →
        (tick gw fuel w (some e) now).1 = Except.error msg) ∧
    ((handle_event gw fuel w.app e).result = Except.ok () →
      ¬ now > w.last_refresh + PLAYBACK_REFRESH_DURACTION →
      (tick gw fuel w (some e) now).1 =
        Except.ok ⟨(handle_event gw fuel w.app e).state, w.last_refresh⟩) := by
  constructor
  · intro msg h
    simp [tick, h]
  · intro h ht
    simp [tick, h, refresh_step, ht]

/-- Witness for C2: the failing `NextTrack` dispatch terminates the tick
with its error. -/
theorem watcher_error_propagation_witness :
    (handle_event gwC2 1 sAfterStartup Event.NextTrack).result =
      Except.error "network failure" ∧
    (tick gwC2 1 ⟨sAfterStartup, 0⟩ (some Event.NextTrack) 0).1 =
      Except.error "network failure" :=
  ⟨rfl, (watcher_error_propagation gwC2 1 ⟨sAfterStartup, 0⟩ Event.NextTrack 0).1
    "network failure" rfl⟩

/-- C3 counterexample: Quit succeeds and clears `is_running`, but a
subsequent tick of the watcher loop (with the refresh interval elapsed)
still performs a Gateway call — the loop never observes `is_running`. -/
theorem quit_does_not_stop_watcher :
    (handle_event gwOk 1 s0 Event.Quit).result = Except.ok () ∧
    (handle_event gwOk 1 s0 Event.Quit).state.is_running = false ∧
    (tick gwOk 1 ⟨(handle_event gwOk 1 s0 Event.Quit).state, 0⟩ none
        (PLAYBACK_REFRESH_DURACTION + 1)).2 = [GCall.currentPlayback] := by
  refine ⟨rfl, rfl, rfl⟩

/-- C3 (corrected): dispatching Quit sets `is_running` to false and never
fails, but the watcher loop never reads `is_running` and does not
terminate on Quit: any subsequent tick whose refresh interval has elapsed
still issues the current-playback Gateway call. -/
theorem quit_sets_flag_but_watcher_ignores_it (gw : Gateway) (fuel : Nat)
    (s : State) (w_last now : Nat) :
    handle_event gw fuel s Event.Quit =
      ⟨Except.ok (), {s with is_running := false}, []⟩ ∧
    (now > w_last + PLAYBACK_REFRESH_DURACTION →
      (tick gw fuel ⟨(handle_event gw fuel s Event.Quit).state, w_last⟩ none now).2 =
        [GCall.currentPlayback]) := by
  refine ⟨rfl, fun ht => ?_⟩
  cases hcp : gw.current_playback <;> simp [tick, refresh_step, ht, hcp]

/-- Witness for C3: after Quit on the initial state, the tick at time 2
still issues the refresh Gateway call. -/
theorem quit_sets_flag_but_watcher_ignores_it_witness :
    handle_event gwOk 1 s0 Event.Quit =
      ⟨Except.ok (), {s0 with is_running := false}, []⟩ ∧
    (tick gwOk 1 ⟨(handle_event gwOk 1 s0 Event.Quit).state, 0⟩ none 2).2 =
      [GCall.currentPlayback] :=
  ⟨(quit_sets_flag_but_watcher_ignores_it gwOk 1 s0 0 2).1,
   (quit_sets_flag_but_watcher_ignores_it gwOk 1 s0 0 2).2 (by decide)⟩

/-- The spec's selection invariant: whenever the UI selection index is
set, it is a valid index into the displayed track list. -/
def selection_invariant (s : State) : Prop :=
  ∀ i, s.ui_context_tracks_table_state.selected = some i →
    i < s.get_context_filtered_tracks.length

/-- The displayed track list does not depend on the table (selection)
state. -/
theorem filtered_tracks_ignore_table_state (s : State) (t : TableState) :
    ({s with ui_context_tracks_table_state := t} : State).get_context_filtered_tracks =
      s.get_context_filtered_tracks := rfl

/-- A playlist whose only entry has missing track data, so its filtered
track list is empty. -/
def plEmpty : FullPlaylist := ⟨"empty", ⟨[⟨none⟩], none⟩⟩

/-- A gateway serving the `plEmpty` playlist. -/
def gwC4 : Gateway :=
  { gwOk with
    playlist := fun i => if i = "empty" then Except.ok plEmpty
                         else Except.error "no such playlist" }

/-- A state with a six-track displayed list and the last index selected,
satisfying the selection invariant. -/
def sC4 : State :=
  { s0 with
    current_playlist := some ⟨"B", ⟨[], none⟩⟩
    current_playlist_tracks :=
      [⟨some ⟨"b0", "B0"⟩⟩, ⟨some ⟨"b1", "B1"⟩⟩, ⟨some ⟨"b2", "B2"⟩⟩,
       ⟨some ⟨"b3", "B3"⟩⟩, ⟨some ⟨"b4", "B4"⟩⟩, ⟨some ⟨"b5", "B5"⟩⟩]
    ui_context_tracks_table_state := ⟨some 5⟩ }

/-- C4 counterexample: successfully loading a playlist whose filtered
track list is empty changes the displayed list but leaves the old
selection index 5 in place, violating the bound invariant. -/
theorem empty_playlist_load_leaves_stale_selection :
    (handle_event gwC4 1 sC4 (Event.GetPlaylist "empty")).result = Except.ok () ∧
    (handle_event gwC4 1 sC4 (Event.GetPlaylist "empty")).state.ui_context_tracks_table_state.selected
      = some 5 ∧
    (handle_event gwC4 1 sC4 (Event.GetPlaylist "empty")).state.get_context_filtered_tracks.length
      = 0 ∧
    ¬ selection_invariant (handle_event gwC4 1 sC4 (Event.GetPlaylist "empty")).state :=
  ⟨rfl, rfl, rfl, fun h => absurd (h 5 rfl) (by decide)⟩

/-- C4 (corrected): SelectNext/SelectPrevious preserve the selection
invariant and clamp without wraparound (no-ops at index 0 and at the last
index); a search recomputation under an active query re-establishes the
invariant (selection 0 or cleared); a successful playlist load that
changes the track list to a non-empty one resets the selection to 0 —
but a load whose filtered result is empty leaves the stale selection in
place (the displayed-list change does not clear it), so the bound
invariant can be violated there. -/
theorem selection_clamping_and_reset (gw : Gateway) (fuel : Nat) (s : State)
    (hinv : selection_invariant s) :
    selection_invariant (handle_event gw fuel s Event.SelectNextTrack).state ∧
    selection_invariant (handle_event gw fuel s Event.SelectPreviousTrack).state ∧
    (s.ui_context_tracks_table_state.selected = some 0 →
      (handle_event gw fuel s Event.SelectPreviousTrack).state = s) ∧
    (∀ i, s.ui_context_tracks_table_state.selected = some i →
      ¬ i + 1 < s.get_context_filtered_tracks.length →
      (handle_event gw fuel s Event.SelectNextTrack).state = s) ∧
    (∀ q, s.context_search_state.query = some q →
      selection_invariant (handle_event gw fuel s Event.SearchTrackInContext).state) ∧
    (∀ playlist_id,
      (handle_event gw fuel s (Event.GetPlaylist playlist_id)).result = Except.ok () →
      (handle_event gw fuel s (Event.GetPlaylist playlist_id)).state.current_playlist_tracks ≠
        s.current_playlist_tracks →
      (handle_event gw fuel s (Event.GetPlaylist playlist_id)).state.current_playlist_tracks ≠ [] →
      (handle_event gw fuel s (Event.GetPlaylist playlist_id)).state.ui_context_tracks_table_state.selected
        = some 0) := by
  refine ⟨?_, ?_, ?_, ?_, ?_, ?_⟩
  · cases hsel : s.ui_context_tracks_table_state.selected with
    | none => simpa [handle_event, hsel] using hinv
    | some id =>
      by_cases hlt : id + 1 < s.get_context_filtered_tracks.length
      · intro i hi
        simp [handle_event, hsel, hlt, TableState.select,
          filtered_tracks_ignore_table_state] at hi ⊢
        omega
      · simpa [handle_event, hsel, hlt] using hinv
  · cases hsel : s.ui_context_tracks_table_state.selected with
    | none => simpa [handle_event, hsel] using hinv
    | some id =>
      by_cases hpos : id > 0
      · intro i hi
        have hid := hinv id hsel
        simp [handle_event, hsel, hpos, TableState.select,
          filtered_tracks_ignore_table_state] at hi ⊢
        omega
      · simpa [handle_event, hsel, hpos] using hinv
  · intro h0
    simp [handle_event, h0]
  · intro i hi hge
    simp [handle_event, hi, hge]
  · intro q hq i hi
    by_cases he : (s.get_context_tracks.filter
        (fun t => strContains (to_lowercase (get_track_description t)) (remove_first q))).isEmpty
    · simp [handle_event, hq, he, TableState.select] at hi
    · simp [handle_event, hq, he, TableState.select,
        State.get_context_filtered_tracks] at hi ⊢
      subst hi
      simp only [List.isEmpty_iff] at he
      exact List.length_pos.mpr he
  · intro playlist_id hok hchanged hne
    by_cases hsc : same_playlist_loaded s playlist_id
    · simp [handle_event, hsc] at hchanged
    · simp only [handle_event, hsc, Bool.false_eq_true, if_false] at hok hchanged hne ⊢
      cases hpl : gw.playlist playlist_id with
      | error e => simp [get_playlist_load, hpl] at hok
      | ok pl =>
        rcases hres : get_current_playlist_tracks gw fuel
            {s with current_playlist := some pl} with ⟨r, cs⟩
        cases r with
        | error e => simp [get_playlist_load, hpl, hres] at hok
        | ok tracks =>
          by_cases he : (tracks.filter (fun t => t.track.isSome)).isEmpty
          · rw [List.isEmpty_iff] at he
            simp [get_playlist_load, hpl, hres, he] at hne
          · simp [get_playlist_load, hpl, hres, he, TableState.select]

/-- Witness for C4: in the state `sSC` (one displayed track, index 0
selected) the invariant holds and is preserved by `SelectNextTrack`. -/
theorem selection_clamping_and_reset_witness :
    selection_invariant sSC ∧
    selection_invariant (handle_event gwOk 1 sSC Event.SelectNextTrack).state :=
  have hinv : selection_invariant sSC := fun i h => by
    simp [sSC, s0] at h
    subst h
    decide
  ⟨hinv, (selection_clamping_and_reset gwOk 1 sSC hinv).1⟩

/-- A state with one displayed track named "Abc" and the stored query
"/A", whose remainder is upper-case. -/
def sC5 : State :=
  { s0 with
    current_playlist_tracks := [⟨some ⟨"u", "Abc"⟩⟩]
    context_search_state := ⟨some "/A", []⟩ }

/-- C5 counterexample: with query "/A" the track named "Abc" is not
matched (the stored result is empty), although a case-insensitive
substring match of the remainder "A" against "Abc" succeeds: the query
remainder is compared verbatim against the lowercased description, so
matching is not case-insensitive in the query. -/
theorem search_query_not_lowercased :
    (handle_event gwOk 1 sC5 Event.SearchTrackInContext).state.context_search_state.tracks
      = [] ∧
    strContains (to_lowercase (get_track_description ⟨"u", "Abc"⟩))
      (to_lowercase (remove_first "/A")) = true := by
  constructor <;> decide

/-- The spec's concrete search example: tracks named "Abcdef", "xyz",
"ABCx" with stored query "/abc". -/
def sEx : State :=
  { s0 with
    current_playlist_tracks :=
      [⟨some ⟨"a", "Abcdef"⟩⟩, ⟨some ⟨"b", "xyz"⟩⟩, ⟨some ⟨"c", "ABCx"⟩⟩]
    context_search_state := ⟨some "/abc", []⟩ }

/-- C5 (corrected): for every stored query, `SearchTrackInContext` strips
the first character and substring-matches the lowercased display
description against the remainder taken verbatim (the query is not
lowercased, so matching is case-insensitive in the track text but
case-sensitive in the query; for an all-lowercase remainder this
coincides with case-insensitive matching). The matches are stored in
`context_search_state.tracks` in original relative order, and the
selection is reset to 0 if the result is non-empty, else cleared. -/
theorem search_filters_by_lowercased_description (gw : Gateway) (fuel : Nat)
    (s : State) (q : String) (hq : s.context_search_state.query = some q) :
    (handle_event gw fuel s Event.SearchTrackInContext).result = Except.ok () ∧
    (handle_event gw fuel s Event.SearchTrackInContext).calls = [] ∧
    (handle_event gw fuel s Event.SearchTrackInContext).state.context_search_state.tracks =
      s.get_context_tracks.filter
        (fun t => strContains (to_lowercase (get_track_description t)) (remove_first q)) ∧
    List.Sublist
      ((handle_event gw fuel s Event.SearchTrackInContext).state.context_search_state.tracks)
      s.get_context_tracks ∧
    ((handle_event gw fuel s Event.SearchTrackInContext).state.context_search_state.tracks = [] →
      (handle_event gw fuel s Event.SearchTrackInContext).state.ui_context_tracks_table_state.selected
        = none) ∧
    ((handle_event gw fuel s Event.SearchTrackInContext).state.context_search_state.tracks ≠ [] →
      (handle_event gw fuel s Event.SearchTrackInContext).state.ui_context_tracks_table_state.selected
        = some 0) := by
  refine ⟨?_, ?_, ?_, ?_, ?_, ?_⟩
  · simp [handle_event, hq]
  · simp [handle_event, hq]
  · simp [handle_event, hq]
  · simp only [handle_event, hq]
    exact List.filter_sublist _
  · intro hnil
    simp only [handle_event, hq] at hnil ⊢
    simp only [TableState.select]
    simp [List.isEmpty_iff, hnil]
  · intro hnn
    simp only [handle_event, hq] at hnn ⊢
    simp only [TableState.select]
    simp [List.isEmpty_iff, hnn]

/-- Witness for C5: the spec's concrete example — query "/abc" against
tracks named "Abcdef", "xyz", "ABCx" yields the first and third in
order, with the selection reset to 0. -/
theorem search_filters_by_lowercased_description_witness :
    sEx.context_search_state.query = some "/abc" ∧
    (handle_event gwOk 1 sEx Event.SearchTrackInContext).state.context_search_state.tracks =
      [⟨"a", "Abcdef"⟩, ⟨"c", "ABCx"⟩] ∧
    (handle_event gwOk 1 sEx Event.SearchTrackInContext).state.ui_context_tracks_table_state.selected
      = some 0 ∧
    (handle_event gwOk 1 sEx Event.SearchTrackInContext).result = Except.ok () :=
  ⟨rfl, by decide, by decide,
   (search_filters_by_lowercased_description gwOk 1 sEx "/abc" rfl).1⟩

/-- A playlist whose entries all have missing track data. -/
def plE2 : FullPlaylist := ⟨"e2", ⟨[⟨none⟩, ⟨none⟩], none⟩⟩

/-- A playlist mixing present and missing track data. -/
def plMix : FullPlaylist :=
  ⟨"mix", ⟨[⟨some ⟨"m1", "M1"⟩⟩, ⟨none⟩, ⟨some ⟨"m2", "M2"⟩⟩], none⟩⟩

/-- A gateway serving the `plE2` and `plMix` playlists. -/
def gwC6 : Gateway :=
  { gwOk with
    playlist := fun i =>
      if i = "e2" then Except.ok plE2
      else if i = "mix" then Except.ok plMix
      else Except.error "no such playlist" }

/-- A state with a stale selection index 2 and nothing loaded. -/
def sC6 : State := { s0 with ui_context_tracks_table_state := ⟨some 2⟩ }

/-- C6 counterexample: a successful load whose filtered track list is
empty leaves the previous selection (index 2) set instead of unsetting
it. -/
theorem empty_load_keeps_selection_set :
    (handle_event gwC6 1 sC6 (Event.GetPlaylist "e2")).result = Except.ok () ∧
    (handle_event gwC6 1 sC6 (Event.GetPlaylist "e2")).state.current_playlist_tracks = [] ∧
    (handle_event gwC6 1 sC6 (Event.GetPlaylist "e2")).state.ui_context_tracks_table_state.selected
      = some 2 :=
  ⟨rfl, rfl, rfl⟩

/-- C6 (corrected): after a `GetPlaylist` dispatch that actually performs
the load completes successfully, `current_playlist_tracks` contains zero
entries with missing underlying track data, and the selection is 0 if
the resulting list is non-empty — but if the resulting list is empty the
selection is left unchanged, not unset. -/
theorem playlist_load_filters_and_selects (gw : Gateway) (fuel : Nat) (s : State)
    (playlist_id : String)
    (hnoshort : same_playlist_loaded s playlist_id = false)
    (hok : (handle_event gw fuel s (Event.GetPlaylist playlist_id)).result = Except.ok ()) :
    (∀ pt ∈ (handle_event gw fuel s (Event.GetPlaylist playlist_id)).state.current_playlist_tracks,
        pt.track.isSome = true) ∧
    ((handle_event gw fuel s (Event.GetPlaylist playlist_id)).state.current_playlist_tracks ≠ [] →
      (handle_event gw fuel s (Event.GetPlaylist playlist_id)).state.ui_context_tracks_table_state.selected
        = some 0) ∧
    ((handle_event gw fuel s (Event.GetPlaylist playlist_id)).state.current_playlist_tracks = [] →
      (handle_event gw fuel s (Event.GetPlaylist playlist_id)).state.ui_context_tracks_table_state =
        s.ui_context_tracks_table_state) := by
  simp only [handle_event, hnoshort, Bool.false_eq_true, if_false] at hok ⊢
  cases hpl : gw.playlist playlist_id with
  | error e => simp [get_playlist_load, hpl] at hok
  | ok pl =>
    rcases hres : get_current_playlist_tracks gw fuel
        {s with current_playlist := some pl} with ⟨r, cs⟩
    cases r with
    | error e => simp [get_playlist_load, hpl, hres] at hok
    | ok tracks =>
      by_cases he : (tracks.filter (fun t => t.track.isSome)).isEmpty
      · refine ⟨?_, ?_, ?_⟩
        · intro pt hpt
          simp [get_playlist_load, hpl, hres, he] at hpt
          exact hpt.2
        · intro hnn
          rw [List.isEmpty_iff] at he
          simp [get_playlist_load, hpl, hres, he] at hnn
        · intro _
          simp [get_playlist_load, hpl, hres, he]
      · refine ⟨?_, ?_, ?_⟩
        · intro pt hpt
          simp [get_playlist_load, hpl, hres, he] at hpt
          exact hpt.2
        · intro _
          simp [get_playlist_load, hpl, hres, he, TableState.select]
        · intro hnil
          simp only [get_playlist_load, hpl, hres] at hnil
          exact absurd (List.isEmpty_iff.mpr hnil) he

/-- Witness for C6: loading the mixed playlist keeps exactly the two
entries with present track data and resets the selection to 0. -/
theorem playlist_load_filters_and_selects_witness :
    same_playlist_loaded sC6 "mix" = false ∧
    (handle_event gwC6 1 sC6 (Event.GetPlaylist "mix")).result = Except.ok () ∧
    (handle_event gwC6 1 sC6 (Event.GetPlaylist "mix")).state.current_playlist_tracks =
      [⟨some ⟨"m1", "M1"⟩⟩, ⟨some ⟨"m2", "M2"⟩⟩] ∧
    ((handle_event gwC6 1 sC6 (Event.GetPlaylist "mix")).state.current_playlist_tracks ≠ [] →
      (handle_event gwC6 1 sC6 (Event.GetPlaylist "mix")).state.ui_context_tracks_table_state.selected
        = some 0) :=
  ⟨by decide, by rfl, by decide,
   (playlist_load_filters_and_selects gwC6 1 sC6 "mix" (by decide) rfl).2.1⟩

end Spotify
